import Mathlib

set_option maxRecDepth 8192

/-!
Shallow embedding of the clawdbot-wechat-bridge service (TypeScript sources)
into Lean 4, used to settle the specification claims about:

* the signature verifier (`src/utils/signature.ts`),
* the Redis-backed binding store (`src/services/redis.ts`),
* the WeChat route handlers (`src/routes/wechat.ts`),
* the Clawdbot forwarder's task mapping (`src/services/clawdbot-forwarder.ts`),
* the callback receiver (`src/routes/callback.ts`),
* the access-token cache (`src/services/wechat-token.ts`),
* message chunking and the send retry loop (`src/services/wechat-message.ts`).

External collaborators (the sha1 function from `crypto`, the WHATWG `URL`
validator, the network) are modelled as explicit function parameters or
response traces; JSON (de)serialisation of bindings is modelled by a free
constructor so that a corrupted store value is representable.
JavaScript string semantics (truthiness of the empty string, `||` defaults,
template interpolation of `undefined`, the `\s` character class) are
embedded explicitly below.
-/

namespace WechatBridge

/-- JS truthiness of an optional string: `undefined` and `""` are falsy. -/
def jsTruthy (s : Option String) : Bool :=
  match s with
  | none => false
  | some v => decide (v ≠ "")

/-- JS `a || d` for an optional string `a`: the default wins when `a` is
`undefined` or the empty string. -/
def jsOr (v : Option String) (d : String) : String :=
  match v with
  | none => d
  | some s => if s = "" then d else s

/-- JS template interpolation of a possibly-`undefined` value: missing values
render as the string `undefined`. Numeric fields are carried as their decimal
rendering. -/
def jsInterp (v : Option String) : String := v.getD "undefined"

/-- The JavaScript `\s` character class (also the set trimmed by
`String.prototype.trim`/`trimStart`): ASCII whitespace, NBSP, the Unicode
space separators, the line separators and the BOM. -/
def jsWhitespace (c : Char) : Bool :=
  [' ', '\t', '\n', '\r', '\x0b', '\x0c', '\u00A0', '\u1680',
   '\u2028', '\u2029', '\u202F', '\u205F', '\u3000', '\uFEFF'].contains c
  || (decide ('\u2000' ≤ c) && decide (c ≤ '\u200A'))

/-- JS `String.prototype.trim`. -/
def jsTrim (l : List Char) : List Char :=
  ((l.dropWhile jsWhitespace).reverse.dropWhile jsWhitespace).reverse

/-! ## Signature verifier (`src/utils/signature.ts`)

`crypto.createHash('sha1')` is an external library; the two functions are
embedded parametrically in the hash. Both source functions share the same
pipeline: sort `[token, timestamp, nonce]` lexicographically, join, hash. -/

/-- Lexicographic comparison on code units, the JS default sort
comparator (code points coincide with UTF-16 code units on the BMP). -/
def charListLt : List Char → List Char → Bool
  | [], [] => false
  | [], _ :: _ => true
  | _ :: _, [] => false
  | a :: as, b :: bs =>
    if a.toNat < b.toNat then true
    else if b.toNat < a.toNat then false
    else charListLt as bs

/-- JS `a < b` on strings. -/
def stringLtJs (a b : String) : Bool := charListLt a.data b.data

/-- Insert a string into a sorted list (lexicographic order, as JS
`Array.prototype.sort()` with the default comparator on these strings). -/
def insertSorted (x : String) : List String → List String
  | [] => [x]
  | y :: ys => if stringLtJs y x then y :: insertSorted x ys else x :: y :: ys

/-- `[token, timestamp, nonce].sort()`. -/
def sortStrings (l : List String) : List String :=
  l.foldr insertSorted []

/-- `generateSignature` from `src/utils/signature.ts`, parametric in sha1. -/
def generateSignature (sha1 : String → String)
    (token timestamp nonce : String) : String :=
  sha1 (String.join (sortStrings [token, timestamp, nonce]))

/-- `validateSignature` from `src/utils/signature.ts`, parametric in sha1. -/
def validateSignature (sha1 : String → String)
    (token signature timestamp nonce : String) : Bool :=
  decide (generateSignature sha1 token timestamp nonce = signature)

/-! ## Binding store (`src/services/redis.ts`)

The Redis keyspace is modelled as a function from keys to optional stored
values.  `JSON.stringify`/`JSON.parse` of a `UserBinding` is modelled by the
`bindingJson` constructor; a value that does not parse back (the `catch`
branch of `getBinding`) is the `corrupt` constructor. -/

/-- `UserBinding` from `src/services/redis.ts`. -/
structure UserBinding where
  endpoint : String
  token : String
  createdAt : Nat
deriving DecidableEq

/-- A raw value stored under a binding key: either serialised JSON of a
binding, or bytes that `JSON.parse` rejects. -/
inductive StoredVal where
  | bindingJson (b : UserBinding)
  | corrupt (raw : String)
deriving DecidableEq

/-- The shared Redis keyspace. -/
def Store := String → Option StoredVal

/-- `BINDING_PREFIX + openId`, the key of a user's binding. -/
def bindingKeyOf (openId : String) : String := "wechat:binding:" ++ openId

def storeSet (st : Store) (k : String) (v : StoredVal) : Store :=
  fun q => if q = k then some v else st q

def storeDel (st : Store) (k : String) : Store :=
  fun q => if q = k then none else st q

def emptyStore : Store := fun _ => none

/-- `setBinding` from `src/services/redis.ts` (`now` is `Date.now()`). -/
def setBinding (st : Store) (openId endpoint token : String) (now : Nat) :
    Store :=
  storeSet st (bindingKeyOf openId)
    (.bindingJson { endpoint := endpoint, token := token, createdAt := now })

/-- `getBinding` from `src/services/redis.ts`: absent key gives `none`, a
value that fails to parse also gives `none` (the `catch` branch). -/
def getBinding (st : Store) (openId : String) : Option UserBinding :=
  match st (bindingKeyOf openId) with
  | none => none
  | some (.bindingJson b) => some b
  | some (.corrupt _) => none

/-- `deleteBinding` from `src/services/redis.ts`: returns the new store and
whether a key was actually deleted (`result > 0`). -/
def deleteBinding (st : Store) (openId : String) : Store × Bool :=
  (storeDel st (bindingKeyOf openId), (st (bindingKeyOf openId)).isSome)

/-! ## Inbound messages and the bind command (`src/routes/wechat.ts`)

`BIND_REGEX = /^bind\s+(\S+)\s+(\S+)$/i` and `UNBIND_REGEX = /^unbind$/i`.
Because `\s` and `\S` are complementary character classes, the greedy
left-to-right parse below is exactly the regex's match semantics (no
backtracking can succeed where it fails). -/

/-- The parsed WeChat inbound envelope (`WeChatMessage` from
`src/utils/xml-parser.ts`).  `MsgType` is an open string, matching the
switch-with-default in the forwarder.  Numeric location fields are carried
as their decimal rendering (they are only ever interpolated into text). -/
structure WeChatMessage where
  ToUserName : String
  FromUserName : String
  CreateTime : Nat
  MsgType : String
  Content : Option String := none
  MsgId : Option String := none
  Event : Option String := none
  PicUrl : Option String := none
  Recognition : Option String := none
  Location_X : Option String := none
  Location_Y : Option String := none
  Label : Option String := none
  Title : Option String := none
  Description : Option String := none
  Url : Option String := none
deriving DecidableEq

/-- One maximal `\S+` group. -/
def takeNonWs (l : List Char) : List Char :=
  l.takeWhile (fun c => !jsWhitespace c)

/-- Match `/^bind\s+(\S+)\s+(\S+)$/i` against a list of characters,
returning the two captured groups. -/
def matchBindChars : List Char → Option (List Char × List Char)
  | b :: i :: n :: d :: rest =>
    if b.toLower = 'b' ∧ i.toLower = 'i' ∧ n.toLower = 'n' ∧ d.toLower = 'd'
    then
      let r1 := rest.dropWhile jsWhitespace
      if r1.length = rest.length then none else
      let t1 := takeNonWs r1
      if t1.isEmpty then none else
      let r2 := r1.drop t1.length
      let r3 := r2.dropWhile jsWhitespace
      if r3.length = r2.length then none else
      let t2 := takeNonWs r3
      if t2.isEmpty then none else
      if (r3.drop t2.length).isEmpty then some (t1, t2) else none
    else none
  | _ => none

/-- `UNBIND_REGEX.test(message.Content.trim())`:
`/^unbind$/i` on the trimmed content. -/
def isUnbindCmd (content : String) : Bool :=
  decide ((jsTrim content.data).map Char.toLower = "unbind".data)

/-- The welcome reply sent on a `subscribe` event. -/
def welcomeMsg : String := "👋 欢迎关注！

这是一个 Clawdbot 桥接服务。请发送以下指令绑定你的 Clawdbot 实例：

bind <你的Clawdbot地址> <Token>

例如：
bind https://my-clawdbot.example.com/webhook abc123

绑定后，你可以直接发送消息与你的 Clawdbot 对话。

其他指令：
• unbind - 解除绑定"

/-- Reply for a bind command whose URL fails `new URL(endpoint)`. -/
def invalidUrlMsg : String := "❌ 无效的 URL 格式，请检查后重试。"

/-- Reply for a successful bind, naming the bound endpoint. -/
def bindSuccessMsg (endpoint : String) : String :=
  "✅ 绑定成功！

你的 Clawdbot 地址：" ++ endpoint ++ "

现在可以直接发送消息与你的 Clawdbot 对话了。

提示：发送 unbind 可以解除绑定。"

/-- Onboarding reply sent to an unbound subject whose text is not a
(well-formed) bind command. -/
def promptBindMsg : String := "👋 请先绑定你的 Clawdbot 实例。

发送格式：
bind <你的Clawdbot地址> <Token>

例如：
bind https://my-clawdbot.example.com/webhook abc123"

/-- Reply confirming an unbind. -/
def unbindOkMsg : String := "✅ 已解除绑定。

你可以随时使用 bind 指令重新绑定新的 Clawdbot 实例。"

/-- Immediate passive reply while the task is forwarded. -/
def processingMsg : String := "⏳ 正在处理中，请稍候..."

/-- A passive text reply, `buildTextReply(toUser, fromUser, content)`. -/
structure TextReply where
  toUserName : String
  fromUserName : String
  content : String
deriving DecidableEq

/-- Observable outcome of the `POST /wechat` message-dispatch logic (after
signature check and XML parse): the new store, the passive reply (`none` is
the empty body sent for non-subscribe events), and whether
`forwardToClawdbot` was invoked. -/
structure PostResult where
  store : Store
  reply : Option TextReply
  forwarded : Bool

/-- The message-dispatch portion of the `POST /wechat` handler
(`src/routes/wechat.ts`, lines 80–170), parametric in the `new URL`
validator and the current time. -/
def handleWechatPost (st : Store) (validUrl : String → Bool) (now : Nat)
    (m : WeChatMessage) : PostResult :=
  let openId := m.FromUserName
  let toUser := m.ToUserName
  if m.MsgType = "event" then
    if m.Event = some "subscribe" then
      ⟨st, some ⟨openId, toUser, welcomeMsg⟩, false⟩
    else ⟨st, none, false⟩
  else
    match getBinding st openId with
    | none =>
      let bindMatch : Option (List Char × List Char) :=
        if m.MsgType = "text" ∧ jsTruthy m.Content then
          matchBindChars (jsOr m.Content "").data
        else none
      match bindMatch with
      | some (e, t) =>
        let endpoint := e.asString
        let token := t.asString
        if validUrl endpoint then
          ⟨setBinding st openId endpoint token now,
           some ⟨openId, toUser, bindSuccessMsg endpoint⟩, false⟩
        else ⟨st, some ⟨openId, toUser, invalidUrlMsg⟩, false⟩
      | none => ⟨st, some ⟨openId, toUser, promptBindMsg⟩, false⟩
    | some _binding =>
      if m.MsgType = "text" ∧ jsTruthy m.Content
          ∧ isUnbindCmd (jsOr m.Content "") then
        ⟨(deleteBinding st openId).1, some ⟨openId, toUser, unbindOkMsg⟩,
         false⟩
      else
        ⟨st, some ⟨openId, toUser, processingMsg⟩, true⟩

/-- Outcome of the `GET /wechat` verification handshake. -/
inductive GetResult where
  | badRequest
  | echo (body : String)
  | forbidden
deriving DecidableEq

/-- The `GET /wechat` handler (`src/routes/wechat.ts`, lines 27–45).  Query
parameters are optional strings; JS falsiness makes a present-but-empty
parameter count as missing. -/
def handleWechatGet (sha1 : String → String) (token : String)
    (signature timestamp nonce echostr : Option String) : GetResult :=
  if !(jsTruthy signature && jsTruthy timestamp && jsTruthy nonce) then
    .badRequest
  else
    let ok := validateSignature sha1 token (jsOr signature "")
      (jsOr timestamp "") (jsOr nonce "")
    if ok && jsTruthy echostr then .echo (jsOr echostr "")
    else .forbidden

/-! ## Forwarder task mapping (`src/services/clawdbot-forwarder.ts`)

The `switch (message.MsgType)` in `doForward` that derives the task text. -/

/-- The task text computed by `doForward` for an inbound message. -/
def doForwardTask (m : WeChatMessage) : String :=
  if m.MsgType = "text" then jsOr m.Content ""
  else if m.MsgType = "voice" then jsOr m.Recognition "[语音消息，无法识别]"
  else if m.MsgType = "image" then "[图片消息] " ++ jsOr m.PicUrl ""
  else if m.MsgType = "location" then
    "[位置消息] 经度: " ++ jsInterp m.Location_Y ++ ", 纬度: "
      ++ jsInterp m.Location_X ++ ", " ++ jsOr m.Label ""
  else if m.MsgType = "link" then
    "[链接消息] " ++ jsOr m.Title "" ++ "\n" ++ jsOr m.Description ""
      ++ "\n" ++ jsOr m.Url ""
  else "[" ++ m.MsgType ++ "消息]"

/-! ## Access-token cache (`src/services/wechat-token.ts`) -/

/-- The cached token record (`TokenCache`).  `expiresAt` is seconds since
epoch; `Int` mirrors JS number arithmetic on these values. -/
structure TokenCache where
  accessToken : String
  expiresAt : Int
deriving DecidableEq

/-- `TOKEN_REFRESH_THRESHOLD` — refresh 10 minutes before expiry. -/
def TOKEN_REFRESH_THRESHOLD : Int := 600

/-- What one call to `getAccessToken` decides to do. -/
inductive TokenFetch where
  | cachedToken (v : String)
  | refresh
deriving DecidableEq

/-- The cache-freshness decision of `getAccessToken`
(`src/services/wechat-token.ts`, lines 17–33): return the cached token only
when `expiresAt - TOKEN_REFRESH_THRESHOLD > now`, otherwise fall through to
`refreshAccessToken()`. -/
def getAccessToken (cached : Option TokenCache) (now : Int) : TokenFetch :=
  match cached with
  | some t =>
    if t.expiresAt - TOKEN_REFRESH_THRESHOLD > now then
      .cachedToken t.accessToken
    else .refresh
  | none => .refresh

/-! ## Customer-service send with retry (`src/services/wechat-message.ts`)

`sendCustomerServiceMessage` is embedded over an explicit trace of platform
responses: each API call consumes the head of the list (an exhausted list
stands for a network error, which the `catch` turns into `false`). -/

/-- One response of the platform send API. -/
inductive SendOutcome where
  | okResp        -- `errcode === 0`
  | authRejected  -- `errcode === 40001`
  | otherError    -- any other `errcode`
  | networkError  -- axios throws
deriving DecidableEq

/-- Observable effects of one `sendCustomerServiceMessage` call: whether it
returned `true`, how many times `forceRefreshToken` ran, and how many send
API calls were made. -/
structure SendTrace where
  delivered : Bool
  forcedRefreshes : Nat
  apiCalls : Nat
deriving DecidableEq

/-- `sendCustomerServiceMessage(message, retryOnTokenError)`
(`src/services/wechat-message.ts`, lines 80–114): on `errcode 40001` with
`retryOnTokenError` set, force-refresh the token and retry once with
`retryOnTokenError = false`; every other non-zero `errcode` and every
thrown error returns `false`. -/
def sendCustomerServiceMessage :
    List SendOutcome → Bool → SendTrace
  | [], _ => ⟨false, 0, 1⟩
  | r :: rest, retryOnTokenError =>
    match r with
    | .okResp => ⟨true, 0, 1⟩
    | .authRejected =>
      if retryOnTokenError then
        let t := sendCustomerServiceMessage rest false
        ⟨t.delivered, t.forcedRefreshes + 1, t.apiCalls + 1⟩
      else ⟨false, 0, 1⟩
    | .otherError => ⟨false, 0, 1⟩
    | .networkError => ⟨false, 0, 1⟩

/-! ## Long-text chunking (`sendTextMessage`) -/

/-- `MAX_LENGTH` — the WeChat customer-service message ceiling. -/
def MAX_LENGTH : Nat := 600

/-- JS `str.lastIndexOf(c, fromIdx)`: the largest index `i ≤ fromIdx` with
`str[i] = c`, if any. -/
def lastIndexOfWithin (l : List Char) (c : Char) : Nat → Option Nat
  | 0 => if l.get? 0 = some c then some 0 else none
  | n + 1 =>
    if l.get? (n + 1) = some c then some (n + 1)
    else lastIndexOfWithin l c n

/-- The split index chosen for a remainder longer than `MAX_LENGTH`: the
last newline at or before the ceiling, unless absent or below the midpoint,
else the last space likewise, else a hard cut at the ceiling. -/
def splitIndexOf (l : List Char) : Nat :=
  let byNewline := lastIndexOfWithin l '\n' MAX_LENGTH
  let chosen :=
    match byNewline with
    | some i =>
      if i < MAX_LENGTH / 2 then lastIndexOfWithin l ' ' MAX_LENGTH
      else some i
    | none => lastIndexOfWithin l ' ' MAX_LENGTH
  match chosen with
  | some i => if i < MAX_LENGTH / 2 then MAX_LENGTH else i
  | none => MAX_LENGTH

/-- The chunk-splitting `while` loop of `sendTextMessage`, with explicit
fuel (each iteration consumes at least `MAX_LENGTH / 2` characters, so fuel
equal to the length is always sufficient; see
`splitChunksFuel_fuel_irrelevant`). -/
def splitChunksFuel : Nat → List Char → List (List Char)
  | 0, _ => []
  | fuel + 1, l =>
    if l.length = 0 then []
    else if l.length ≤ MAX_LENGTH then [l]
    else
      let i := splitIndexOf l
      l.take i :: splitChunksFuel fuel ((l.drop i).dropWhile jsWhitespace)

/-- The chunks of `sendTextMessage`'s splitting loop. -/
def splitChunks (l : List Char) : List (List Char) :=
  splitChunksFuel l.length l

/-- The `(<n>/<total>) ` marker added to every chunk after the first. -/
def chunkWithMarker (i total : Nat) (chunk : String) : String :=
  if i = 0 then chunk
  else "(" ++ toString (i + 1) ++ "/" ++ toString total ++ ") " ++ chunk

/-- The send loop of `sendTextMessage`: chunk `i` is sent as
`chunkWithMarker i total`. -/
def numberChunks (total : Nat) : Nat → List String → List String
  | _, [] => []
  | i, c :: rest => chunkWithMarker i total c :: numberChunks total (i + 1) rest

/-- The sequence of message bodies sent by `sendTextMessage`
(`src/services/wechat-message.ts`, lines 119–176): short content is sent
as-is, long content is split and every chunk after the first is prefixed
with its `(<n>/<total>) ` marker. -/
def sendTextMessageBodies (content : String) : List String :=
  if content.length ≤ MAX_LENGTH then [content]
  else
    let chunks := (splitChunks content.data).map List.asString
    numberChunks chunks.length 0 chunks

/-! ## Callback receiver (`src/routes/callback.ts`) -/

/-- The JSON body of `POST /callback/:openid`
(`metadata?.thinking_time_ms` flattened into one optional field, exactly the
access pattern of the handler). -/
structure ClawdbotCallbackPayload where
  success : Bool
  result : Option String := none
  error : Option String := none
  thinking_time_ms : Option Nat := none
deriving DecidableEq

/-- `(ms / 1000).toFixed(1)` on the thinking time: seconds with one
fractional digit, rounded half-up (exact decimal rounding; the source's
IEEE-double detour is observationally identical on these magnitudes). -/
def formatThinkingSeconds (ms : Nat) : String :=
  let tenths := (ms * 10 + 500) / 1000
  toString (tenths / 10) ++ "." ++ toString (tenths % 10)

/-- The message text composed by the callback handler: result text or the
"completed, no content" placeholder on success, an error-prefixed text on
failure, plus the elapsed-time suffix when `thinking_time_ms` is truthy
(present and non-zero). -/
def composeCallbackMessage (p : ClawdbotCallbackPayload) : String :=
  let base :=
    if p.success then jsOr p.result "✅ 任务已完成（无返回内容）"
    else "❌ 处理失败：" ++ jsOr p.error "未知错误"
  match p.thinking_time_ms with
  | some ms =>
    if ms = 0 then base
    else base ++ "\n\n⏱️ 思考用时: " ++ formatThinkingSeconds ms ++ "s"
  | none => base

/-- Observable outcome of the `POST /callback/:openid` handler: the content
handed to `sendTextMessage`, and the HTTP status/body. -/
structure CallbackOutcome where
  sentContent : String
  status : Nat
  ok : Bool
deriving DecidableEq

/-- The `POST /callback/:openid` handler (`src/routes/callback.ts`, lines
31–70), parametric in the delivery outcome: the binding lookup is
informational only (a warning is logged), delivery is attempted regardless,
and the HTTP response is `200 {ok:true}` or `500 {ok:false,…}`. -/
def handleCallback (st : Store) (openid : String)
    (p : ClawdbotCallbackPayload) (send : String → Bool) : CallbackOutcome :=
  let _binding := getBinding st openid
  let messageContent := composeCallbackMessage p
  if send messageContent then ⟨messageContent, 200, true⟩
  else ⟨messageContent, 500, false⟩

/-! ## Concrete fixtures used by counterexamples and witnesses -/

/-- A permissive `new URL` model: every candidate validates. -/
def cxValidUrl : String → Bool := fun _ => true

/-- A text message carrying the given content. -/
def textMsg (openId toUser content : String) : WeChatMessage :=
  { ToUserName := toUser, FromUserName := openId, CreateTime := 1,
    MsgType := "text", Content := some content }

/-- First bind command of the C1 scenario. -/
def cxBindMsg1 : WeChatMessage := textMsg "u1" "srv" "bind http://a.example tok1"

/-- Second bind command of the C1 scenario, sent while already bound. -/
def cxBindMsg2 : WeChatMessage := textMsg "u1" "srv" "bind http://b.example tok2"

/-- Store after the first bind of the C1 scenario. -/
def cxStore1 : Store := (handleWechatPost emptyStore cxValidUrl 5 cxBindMsg1).store

/-- Store after the second bind of the C1 scenario. -/
def cxStore2 : Store := (handleWechatPost cxStore1 cxValidUrl 6 cxBindMsg2).store

/-- The 1450-character message of the C5 scenario. -/
def longContent : String := String.mk (List.replicate 1450 'a')

/-- A run of `n` copies of `a`, as a string. -/
def aRun (n : Nat) : String := String.mk (List.replicate n 'a')

/-! # Theorems -/

/-! ## Generic string helpers -/

theorem string_eq_empty_of_data_eq_nil {s : String} (h : s.data = []) :
    s = "" := by
  cases s with
  | mk d => rw [show d = [] from h]

theorem jsOr_ne_empty {v : Option String} {d : String} (hd : d ≠ "") :
    jsOr v d ≠ "" := by
  cases v with
  | none => exact hd
  | some s =>
    simp only [jsOr]
    split
    · exact hd
    · next h => exact h

theorem append_left_ne_empty {s : String} (t : String) (hs : s ≠ "") :
    s ++ t ≠ "" := by
  intro h
  apply hs
  have hd : s.data ++ t.data = [] := by
    have := congrArg String.data h
    rwa [String.data_append] at this
  exact string_eq_empty_of_data_eq_nil (List.append_eq_nil.mp hd).1

/-! ## Claim C3 — signature round-trip -/

/-- C3: signature verification round-trip: for every hash function,
shared token, timestamp and nonce, the generated signature validates; any
signature different from the generated one (in particular any single-character
mutation of it) fails validation. -/
theorem claim_C3 :
    ∀ (sha1 : String → String) (token timestamp nonce : String),
      validateSignature sha1 token
          (generateSignature sha1 token timestamp nonce) timestamp nonce
        = true
      ∧ ∀ sig, sig ≠ generateSignature sha1 token timestamp nonce →
          validateSignature sha1 token sig timestamp nonce = false := by
  intro sha1 token timestamp nonce
  constructor
  · simp [validateSignature]
  · intro sig h
    simp only [validateSignature, decide_eq_false_iff_not]
    exact fun hg => h hg.symm

/-- C3 witness: concrete instance with the identity hash; `"bad"` differs
from the generated signature, so validation rejects it. -/
theorem claim_C3_witness :
    validateSignature id "t" (generateSignature id "t" "1" "2") "1" "2" = true
    ∧ validateSignature id "t" "bad" "1" "2" = false :=
  ⟨(claim_C3 id "t" "1" "2").1, (claim_C3 id "t" "1" "2").2 "bad" (by decide)⟩

/-! ## Claim C8 — token cache freshness -/

/-- C8: `getAccessToken` returns the cached token exactly when now is
strictly before `expiresAt` minus the 600-second margin, and otherwise
refreshes; in particular a token with `expiresAt = now + 300` is refreshed
even though it has not yet expired. -/
theorem claim_C8 :
    ∀ (tok : String) (expiresAt now : Int),
      (getAccessToken (some ⟨tok, expiresAt⟩) now = .cachedToken tok
        ↔ now < expiresAt - TOKEN_REFRESH_THRESHOLD)
      ∧ getAccessToken (some ⟨tok, now + 300⟩) now = .refresh
      ∧ getAccessToken none now = .refresh := by
  intro tok expiresAt now
  refine ⟨?_, ?_, rfl⟩
  · simp only [getAccessToken]
    split
    · next h => simp only [true_iff]; exact h
    · next h =>
      constructor
      · intro hEq; exact absurd hEq (by simp)
      · intro hlt; exact absurd hlt h
  · simp only [getAccessToken, TOKEN_REFRESH_THRESHOLD]
    split
    · next h => omega
    · rfl

/-- C8 witness: a concrete token expiring 300 seconds from now is treated
as expired. -/
theorem claim_C8_witness :
    getAccessToken (some ⟨"tk", 1000 + 300⟩) 1000 = .refresh :=
  (claim_C8 "tk" 1300 1000).2.1

/-! ## Claim C6 — auth-rejected send is retried exactly once -/

/-- C6: on an auth-rejected platform response, the token is force-refreshed
and the send retried exactly once: a successful retry delivers after exactly
one refresh and two API calls; a retry that fails in any way reports failure
after exactly one refresh and two API calls — no further retry. -/
theorem claim_C6 :
    ∀ (rest : List SendOutcome) (r2 : SendOutcome), r2 ≠ .okResp →
      sendCustomerServiceMessage (.authRejected :: .okResp :: rest) true
        = ⟨true, 1, 2⟩
      ∧ sendCustomerServiceMessage (.authRejected :: r2 :: rest) true
        = ⟨false, 1, 2⟩ := by
  intro rest r2 h
  refine ⟨rfl, ?_⟩
  cases r2 with
  | okResp => exact absurd rfl h
  | authRejected => rfl
  | otherError => rfl
  | networkError => rfl

/-- C6 witness: concrete traces — a stale token then success delivers with
one refresh; a stale token then a network failure gives up after the single
retry. -/
theorem claim_C6_witness :
    sendCustomerServiceMessage [.authRejected, .okResp] true = ⟨true, 1, 2⟩
    ∧ sendCustomerServiceMessage [.authRejected, .networkError] true
      = ⟨false, 1, 2⟩ :=
  claim_C6 [] .networkError (by decide)

/-! ## Claim C4 — message-kind-to-task mapping -/

/-- C4 counterexample: the mapping is total, but a `text` message whose
content is the empty string is mapped to the empty task string, so not
every kind always yields a non-empty task. -/
theorem claim_C4_counterexample :
    doForwardTask { ToUserName := "srv", FromUserName := "u1",
                    CreateTime := 1, MsgType := "text", Content := some "" }
      = "" := rfl

/-- C4 amended: the mapping is total and follows the exact policy —
`text` maps to the content verbatim (hence non-empty exactly when the
content is a non-empty string), and every other kind (voice, image,
location, link, event, unknown) always yields a non-empty task string. -/
theorem claim_C4_amended :
    ∀ m : WeChatMessage,
      (m.MsgType = "text" → doForwardTask m = jsOr m.Content "")
      ∧ (∀ s, m.MsgType = "text" → m.Content = some s → s ≠ "" →
          doForwardTask m = s)
      ∧ (m.MsgType ≠ "text" → doForwardTask m ≠ "") := by
  intro m
  refine ⟨?_, ?_, ?_⟩
  · intro h; simp [doForwardTask, h]
  · intro s h hc hs
    simp [doForwardTask, h, hc, jsOr, hs]
  · intro h
    by_cases hv : m.MsgType = "voice"
    · simp only [doForwardTask, h, hv, if_false, if_true, if_pos, if_neg]
      exact jsOr_ne_empty (by decide)
    · by_cases hi : m.MsgType = "image"
      · simp only [doForwardTask, h, hi, if_false, if_true, if_pos, if_neg]
        exact append_left_ne_empty _ (by decide)
      · by_cases hl : m.MsgType = "location"
        · simp only [doForwardTask, h, hv, hi, hl, if_false, if_true, if_pos,
            if_neg]
          exact append_left_ne_empty _ (append_left_ne_empty _
            (append_left_ne_empty _ (append_left_ne_empty _
              (append_left_ne_empty _ (by decide)))))
        · by_cases hk : m.MsgType = "link"
          · simp only [doForwardTask, h, hv, hi, hl, hk, if_false, if_true,
              if_pos, if_neg]
            exact append_left_ne_empty _ (append_left_ne_empty _
              (append_left_ne_empty _ (append_left_ne_empty _
                (append_left_ne_empty _ (by decide)))))
          · simp only [doForwardTask, h, hv, hi, hl, hk, if_false, if_true,
              if_pos, if_neg]
            exact append_left_ne_empty _ (append_left_ne_empty _ (by decide))

/-- C4 witness: a concrete text message maps to its content verbatim, and a
concrete event message maps to a non-empty placeholder. -/
theorem claim_C4_witness :
    doForwardTask { ToUserName := "srv", FromUserName := "u1", CreateTime := 1,
                    MsgType := "text", Content := some "hello" } = "hello"
    ∧ doForwardTask { ToUserName := "srv", FromUserName := "u1",
                      CreateTime := 1, MsgType := "event" } ≠ "" :=
  ⟨(claim_C4_amended _).2.1 "hello" rfl rfl (by decide),
   (claim_C4_amended _).2.2 (by decide)⟩

/-! ## Claim C7 — callback composition and HTTP outcome -/

/-- C7 counterexample: thinking-time metadata that is present but zero
(`thinking_time_ms = 0` is falsy in JS) gets no elapsed-time suffix — the
composed message is identical to the no-metadata one, refuting "if
thinking-time metadata is present a formatted elapsed-time suffix is
appended". -/
theorem claim_C7_counterexample :
    composeCallbackMessage
      { success := true, result := some "42", thinking_time_ms := some 0 }
      = "42"
    ∧ composeCallbackMessage
        { success := true, result := some "42", thinking_time_ms := some 0 }
      = composeCallbackMessage { success := true, result := some "42" } :=
  ⟨rfl, rfl⟩

/-- C7 amended: the delivered text is the composed message — result text
(or the fixed placeholder when empty) on success, error-prefixed text (or
the fixed unknown-error placeholder) on failure, with the elapsed-time
suffix appended when `thinking_time_ms` is present *and non-zero*; the HTTP
response is 200/ok on successful delivery and 500/not-ok otherwise; and the
binding lookup does not influence delivery. -/
theorem claim_C7_amended :
    ∀ (st : Store) (openid : String) (p : ClawdbotCallbackPayload)
      (send : String → Bool),
      (handleCallback st openid p send).sentContent = composeCallbackMessage p
      ∧ handleCallback st openid p send = handleCallback emptyStore openid p send
      ∧ (handleCallback st openid p send).status
          = (if send (composeCallbackMessage p) then 200 else 500)
      ∧ (handleCallback st openid p send).ok = send (composeCallbackMessage p)
      ∧ (p.thinking_time_ms = none → p.success = true →
          composeCallbackMessage p = jsOr p.result "✅ 任务已完成（无返回内容）")
      ∧ (p.thinking_time_ms = none → p.success = false →
          composeCallbackMessage p = "❌ 处理失败：" ++ jsOr p.error "未知错误")
      ∧ (∀ ms, p.thinking_time_ms = some ms → ms ≠ 0 →
          composeCallbackMessage p
            = composeCallbackMessage { p with thinking_time_ms := none }
              ++ "\n\n⏱️ 思考用时: " ++ formatThinkingSeconds ms ++ "s") := by
  intro st openid p send
  refine ⟨?_, rfl, ?_, ?_, ?_, ?_, ?_⟩
  · simp only [handleCallback]
    split <;> rfl
  · simp only [handleCallback]
    split
    · next hs => simp [hs]
    · next hs => simp [hs]
  · simp only [handleCallback]
    split
    · next hs => simp [hs]
    · next hs => simp [hs]
  · intro ht hs; simp [composeCallbackMessage, ht, hs]
  · intro ht hs; simp [composeCallbackMessage, ht, hs]
  · intro ms ht hms
    simp [composeCallbackMessage, ht, hms]

/-- C7 witness: a callback with result `"42"` and 1500 ms of thinking time
is delivered with the formatted suffix appended, and delivery success maps
to HTTP 200. -/
theorem claim_C7_witness :
    composeCallbackMessage
      { success := true, result := some "42", thinking_time_ms := some 1500 }
      = composeCallbackMessage { success := true, result := some "42" }
        ++ "\n\n⏱️ 思考用时: " ++ formatThinkingSeconds 1500 ++ "s"
    ∧ (handleCallback emptyStore "u1"
        { success := true, result := some "42", thinking_time_ms := some 1500 }
        (fun _ => true)).status = 200 := by
  constructor
  · exact (claim_C7_amended emptyStore "u1"
      { success := true, result := some "42", thinking_time_ms := some 1500 }
      (fun _ => true)).2.2.2.2.2.2 1500 rfl (by decide)
  · have h := (claim_C7_amended emptyStore "u1"
      { success := true, result := some "42", thinking_time_ms := some 1500 }
      (fun _ => true)).2.2.1
    simpa using h

/-! ## Claim C10 — corrupted store entries behave as absent -/

/-- The observable behaviour of the message handler (reply and forwarding
decision) depends on the store only through the sender's binding lookup. -/
theorem handleWechatPost_observables_congr
    (st1 st2 : Store) (validUrl : String → Bool) (now : Nat)
    (m : WeChatMessage)
    (h : getBinding st1 m.FromUserName = getBinding st2 m.FromUserName) :
    (handleWechatPost st1 validUrl now m).reply
      = (handleWechatPost st2 validUrl now m).reply
    ∧ (handleWechatPost st1 validUrl now m).forwarded
      = (handleWechatPost st2 validUrl now m).forwarded := by
  by_cases hev : m.MsgType = "event"
  · by_cases hsub : m.Event = some "subscribe" <;>
      simp [handleWechatPost, hev, hsub]
  · cases hb : getBinding st2 m.FromUserName with
    | none =>
      have hb1 : getBinding st1 m.FromUserName = none := h.trans hb
      cases hbm : (if m.MsgType = "text" ∧ jsTruthy m.Content then
          matchBindChars (jsOr m.Content "").data else none) with
      | none => simp [handleWechatPost, hev, hb, hb1, hbm]
      | some et =>
        obtain ⟨e, t⟩ := et
        by_cases hv : validUrl e.asString = true <;>
          simp [handleWechatPost, hev, hb, hb1, hbm, hv]
    | some b =>
      have hb1 : getBinding st1 m.FromUserName = some b := h.trans hb
      by_cases hu : m.MsgType = "text" ∧ jsTruthy m.Content
          ∧ isUnbindCmd (jsOr m.Content "") <;>
        simp [handleWechatPost, hev, hb, hb1, hu]

/-- C10: a subject whose stored binding value is not parsable JSON is
observably identical to an unbound subject: `getBinding` returns absent
instead of throwing, the message handler produces the same reply and the
same forwarding decision as for a deleted entry, and callback delivery is
unaffected. -/
theorem claim_C10 :
    ∀ (st : Store) (openId raw : String) (validUrl : String → Bool)
      (now : Nat) (m : WeChatMessage) (p : ClawdbotCallbackPayload)
      (send : String → Bool),
      getBinding (storeSet st (bindingKeyOf openId) (.corrupt raw)) openId
        = none
      ∧ (m.FromUserName = openId →
          (handleWechatPost
              (storeSet st (bindingKeyOf openId) (.corrupt raw))
              validUrl now m).reply
            = (handleWechatPost (storeDel st (bindingKeyOf openId))
                validUrl now m).reply
          ∧ (handleWechatPost
              (storeSet st (bindingKeyOf openId) (.corrupt raw))
              validUrl now m).forwarded
            = (handleWechatPost (storeDel st (bindingKeyOf openId))
                validUrl now m).forwarded)
      ∧ handleCallback (storeSet st (bindingKeyOf openId) (.corrupt raw))
          openId p send
        = handleCallback (storeDel st (bindingKeyOf openId)) openId p send := by
  intro st openId raw validUrl now m p send
  have hcor : getBinding (storeSet st (bindingKeyOf openId) (.corrupt raw))
      openId = none := by
    simp [getBinding, storeSet]
  have hdel : getBinding (storeDel st (bindingKeyOf openId)) openId = none := by
    simp [getBinding, storeDel]
  refine ⟨hcor, ?_, rfl⟩
  intro hfrom
  exact handleWechatPost_observables_congr _ _ validUrl now m
    (by rw [hfrom, hcor, hdel])

/-- C10 witness: a concrete corrupted entry for `u1` yields an absent
lookup, and an ordinary text message from `u1` draws the same reply as if
the entry had been deleted. -/
theorem claim_C10_witness :
    getBinding
      (storeSet emptyStore (bindingKeyOf "u1") (.corrupt "not json")) "u1"
      = none
    ∧ (handleWechatPost
        (storeSet emptyStore (bindingKeyOf "u1") (.corrupt "not json"))
        cxValidUrl 1 (textMsg "u1" "srv" "hello")).reply
      = (handleWechatPost (storeDel emptyStore (bindingKeyOf "u1"))
          cxValidUrl 1 (textMsg "u1" "srv" "hello")).reply := by
  refine ⟨(claim_C10 emptyStore "u1" "not json" cxValidUrl 1
    (textMsg "u1" "srv" "hello") { success := true } (fun _ => true)).1, ?_⟩
  exact ((claim_C10 emptyStore "u1" "not json" cxValidUrl 1
    (textMsg "u1" "srv" "hello") { success := true } (fun _ => true)).2.1
      rfl).1

/-! ## Claim C2 — unbind semantics -/

/-- C2 counterexample: `unbind` from a subject with *no* binding succeeds
and leaves the store absent, but the reply is the onboarding bind-prompt,
not the unbind confirmation — the unbind branch is only reached when a
binding exists. -/
theorem claim_C2_counterexample :
    (handleWechatPost emptyStore cxValidUrl 0
        (textMsg "u1" "srv" "unbind")).reply
      = some ⟨"u1", "srv", promptBindMsg⟩
    ∧ promptBindMsg ≠ unbindOkMsg
    ∧ getBinding (handleWechatPost emptyStore cxValidUrl 0
        (textMsg "u1" "srv" "unbind")).store "u1" = none := by
  refine ⟨by decide, by decide, by decide⟩

/-- C2 amended: processing the text `unbind` never errors and always leaves
the subject's store entry absent; the reply is the unbind confirmation when
a binding existed, and the onboarding bind-prompt when none did. -/
theorem claim_C2_amended :
    ∀ (st : Store) (validUrl : String → Bool) (now : Nat)
      (openId toUser : String),
      (getBinding st openId = none →
        (handleWechatPost st validUrl now
            (textMsg openId toUser "unbind")).reply
          = some ⟨openId, toUser, promptBindMsg⟩
        ∧ getBinding (handleWechatPost st validUrl now
            (textMsg openId toUser "unbind")).store openId = none)
      ∧ (∀ b, getBinding st openId = some b →
        (handleWechatPost st validUrl now
            (textMsg openId toUser "unbind")).reply
          = some ⟨openId, toUser, unbindOkMsg⟩
        ∧ getBinding (handleWechatPost st validUrl now
            (textMsg openId toUser "unbind")).store openId = none) := by
  intro st validUrl now openId toUser
  have hbm : matchBindChars ("unbind".data) = none := by decide
  have hu : isUnbindCmd "unbind" = true := by decide
  constructor
  · intro hget
    constructor
    · simp [handleWechatPost, textMsg, hget, hbm, jsTruthy, jsOr]
    · simp [handleWechatPost, textMsg, hget, hbm, jsTruthy, jsOr]
  · intro b hget
    constructor
    · simp [handleWechatPost, textMsg, hget, hu, jsTruthy, jsOr]
    · have hst : (handleWechatPost st validUrl now
          (textMsg openId toUser "unbind")).store
          = storeDel st (bindingKeyOf openId) := by
        simp [handleWechatPost, textMsg, hget, hu, jsTruthy, jsOr,
          deleteBinding]
      rw [hst]
      simp [getBinding, storeDel]

/-- C2 witness: a bound subject unbinding gets the confirmation and an
absent entry; an unbound subject unbinding keeps an absent entry. -/
theorem claim_C2_witness :
    ((handleWechatPost (setBinding emptyStore "u1" "http://a.example" "tok1" 5)
        cxValidUrl 6 (textMsg "u1" "srv" "unbind")).reply
      = some ⟨"u1", "srv", unbindOkMsg⟩
    ∧ getBinding (handleWechatPost
        (setBinding emptyStore "u1" "http://a.example" "tok1" 5)
        cxValidUrl 6 (textMsg "u1" "srv" "unbind")).store "u1" = none)
    ∧ getBinding (handleWechatPost emptyStore cxValidUrl 6
        (textMsg "u1" "srv" "unbind")).store "u1" = none := by
  constructor
  · exact (claim_C2_amended (setBinding emptyStore "u1" "http://a.example"
      "tok1" 5) cxValidUrl 6 "u1" "srv").2 ⟨"http://a.example", "tok1", 5⟩
      (by decide)
  · exact ((claim_C2_amended emptyStore cxValidUrl 6 "u1" "srv").1 rfl).2

/-! ## Claim C1 — bind/unbind round-trip and replacement -/

theorem takeWhile_all {p : Char → Bool} {l : List Char}
    (h : ∀ c ∈ l, p c = true) : l.takeWhile p = l := by
  induction l with
  | nil => rfl
  | cons x xs ih =>
    rw [List.takeWhile_cons_of_pos (h x (by simp))]
    rw [ih (fun c hc => h c (by simp [hc]))]

theorem dropWhile_append_singleton {p : Char → Bool} {c : Char}
    (hc : p c = false) (xs : List Char) :
    (xs ++ [c]).dropWhile p = xs.dropWhile p ++ [c] := by
  induction xs with
  | nil => simp [List.dropWhile_cons, hc]
  | cons x xs ih =>
    by_cases hx : p x = true
    · simp [List.dropWhile_cons, hx, ih]
    · simp [List.dropWhile_cons, hx]

/-- Trimming a string that starts with a non-whitespace character keeps
that first character. -/
theorem jsTrim_cons_of_nonWs (c : Char) (l : List Char)
    (hc : jsWhitespace c = false) :
    jsTrim (c :: l) = c :: (l.reverse.dropWhile jsWhitespace).reverse := by
  unfold jsTrim
  rw [List.dropWhile_cons_of_neg (by simp [hc])]
  rw [List.reverse_cons]
  rw [dropWhile_append_singleton hc]
  simp

/-- A message whose raw content starts with `b` is never the unbind
command. -/
theorem isUnbindCmd_eq_false_of_data {s : String} {l : List Char}
    (h : s.data = 'b' :: l) : isUnbindCmd s = false := by
  simp only [isUnbindCmd, h, decide_eq_false_iff_not]
  rw [jsTrim_cons_of_nonWs 'b' l (by decide)]
  intro hEq
  rw [List.map_cons] at hEq
  injection hEq with h1 _
  exact absurd h1 (by decide)

/-- Character decomposition of a well-formed bind command. -/
theorem bindCommand_data (url tok : String) :
    ("bind " ++ url ++ " " ++ tok).data
      = 'b' :: 'i' :: 'n' :: 'd' :: ' ' :: (url.data ++ ' ' :: tok.data) := by
  simp only [String.data_append]
  simp [List.append_assoc, List.cons_append, List.singleton_append]

/-- `BIND_REGEX` accepts `bind <url> <tok>` for non-empty whitespace-free
`url` and `tok`, capturing exactly the two groups. -/
theorem matchBindChars_bind_format (url tok : List Char)
    (hu : url ≠ []) (ht : tok ≠ [])
    (hUrlW : ∀ c ∈ url, jsWhitespace c = false)
    (hTokW : ∀ c ∈ tok, jsWhitespace c = false) :
    matchBindChars ('b' :: 'i' :: 'n' :: 'd' :: ' ' :: (url ++ ' ' :: tok))
      = some (url, tok) := by
  obtain ⟨u0, url', rfl⟩ := List.exists_cons_of_ne_nil hu
  obtain ⟨t0, tok', rfl⟩ := List.exists_cons_of_ne_nil ht
  have hu0 : jsWhitespace u0 = false := hUrlW u0 (by simp)
  have ht0 : jsWhitespace t0 = false := hTokW t0 (by simp)
  have hUrl' : ∀ c ∈ url', (fun c => !jsWhitespace c) c = true := by
    intro c hc; simp [hUrlW c (by simp [hc])]
  have hTokAll : ∀ c ∈ t0 :: tok', (fun c => !jsWhitespace c) c = true := by
    intro c hc; simp [hTokW c hc]
  simp only [matchBindChars]
  rw [if_pos (by decide)]
  simp only [List.cons_append]
  rw [List.dropWhile_cons_of_pos (by decide)]
  rw [List.dropWhile_cons_of_neg (by simp [hu0])]
  have ht1 : takeNonWs (u0 :: (url' ++ ' ' :: t0 :: tok')) = u0 :: url' := by
    simp only [takeNonWs]
    rw [List.takeWhile_cons_of_pos (by simp [hu0])]
    rw [List.takeWhile_append_of_pos hUrl']
    rw [List.takeWhile_cons_of_neg (by decide)]
    simp
  rw [ht1]
  rw [if_neg (by simp only [List.length_cons]; omega)]
  have hdrop : List.drop (u0 :: url').length (u0 :: (url' ++ ' ' :: t0 :: tok'))
      = ' ' :: t0 :: tok' := by
    simp only [List.length_cons, List.drop_succ_cons, List.drop_left]
  rw [hdrop]
  have hr3 : List.dropWhile jsWhitespace (' ' :: t0 :: tok') = t0 :: tok' := by
    rw [List.dropWhile_cons_of_pos (by decide)]
    rw [List.dropWhile_cons_of_neg (by simp [ht0])]
  rw [hr3]
  rw [if_neg (by simp)]
  rw [if_neg (by simp only [List.length_cons]; omega)]
  have ht2 : takeNonWs (t0 :: tok') = t0 :: tok' := takeWhile_all hTokAll
  rw [ht2]
  rw [if_neg (by simp)]
  rw [if_pos (by simp [List.drop_length])]

/-- C1 counterexample: from an empty store, `bind http://a.example tok1`
binds as expected, but a subsequent `bind http://b.example tok2` from the
same (now bound) subject does *not* replace the binding — the lookup still
returns the first binding, and the second bind text is forwarded as an
ordinary message instead. -/
theorem claim_C1_counterexample :
    getBinding cxStore1 "u1" = some ⟨"http://a.example", "tok1", 5⟩
    ∧ getBinding cxStore2 "u1" = some ⟨"http://a.example", "tok1", 5⟩
    ∧ getBinding cxStore2 "u1" ≠ some ⟨"http://b.example", "tok2", 6⟩
    ∧ (handleWechatPost cxStore1 cxValidUrl 6 cxBindMsg2).forwarded = true := by
  refine ⟨by decide, by decide, by decide, by decide⟩

/-- C1 amended: `bind <url> <tok>` creates the binding and the round-trip
holds whenever the subject is *unbound*; while a binding exists, a bind
text is not interpreted as a command — the store is unchanged and the
message is forwarded — so replacement requires `unbind` first; `unbind`
followed by a lookup returns absent. -/
theorem claim_C1_amended :
    ∀ (st : Store) (validUrl : String → Bool) (now : Nat)
      (openId toUser url tok : String),
      url.data ≠ [] → tok.data ≠ [] →
      (∀ c ∈ url.data, jsWhitespace c = false) →
      (∀ c ∈ tok.data, jsWhitespace c = false) →
      validUrl url = true →
      getBinding st openId = none →
      (getBinding (handleWechatPost st validUrl now
          (textMsg openId toUser ("bind " ++ url ++ " " ++ tok))).store openId
        = some ⟨url, tok, now⟩
      ∧ (handleWechatPost st validUrl now
          (textMsg openId toUser ("bind " ++ url ++ " " ++ tok))).reply
        = some ⟨openId, toUser, bindSuccessMsg url⟩)
      ∧ (∀ (st2 : Store) (b : UserBinding) (now2 : Nat) (url2 tok2 : String),
          getBinding st2 openId = some b →
          (handleWechatPost st2 validUrl now2
              (textMsg openId toUser ("bind " ++ url2 ++ " " ++ tok2))).store
            = st2
          ∧ (handleWechatPost st2 validUrl now2
              (textMsg openId toUser ("bind " ++ url2 ++ " " ++ tok2))).forwarded
            = true
          ∧ getBinding (handleWechatPost st2 validUrl now2
              (textMsg openId toUser ("bind " ++ url2 ++ " " ++ tok2))).store
              openId
            = some b)
      ∧ (∀ (st3 : Store) (b : UserBinding),
          getBinding st3 openId = some b →
          getBinding (handleWechatPost st3 validUrl now
              (textMsg openId toUser "unbind")).store openId = none) := by
  intro st validUrl now openId toUser url tok hUrlNe hTokNe hUrlW hTokW hValid
    hget
  refine ⟨?_, ?_, ?_⟩
  · have hdata := bindCommand_data url tok
    have hContentNe : ("bind " ++ url ++ " " ++ tok) ≠ "" := by
      intro h
      rw [h] at hdata
      exact absurd hdata.symm (List.cons_ne_nil _ _)
    have hjt : jsTruthy (some ("bind " ++ url ++ " " ++ tok)) = true := by
      simp [jsTruthy, hContentNe]
    have hjo : jsOr (some ("bind " ++ url ++ " " ++ tok)) ""
        = "bind " ++ url ++ " " ++ tok := by
      simp [jsOr, hContentNe]
    have hmatch : matchBindChars
        ('b' :: 'i' :: 'n' :: 'd' :: ' ' :: (url.data ++ ' ' :: tok.data))
        = some (url.data, tok.data) :=
      matchBindChars_bind_format url.data tok.data hUrlNe hTokNe hUrlW hTokW
    have hAsU : url.data.asString = url := by cases url; rfl
    have hAsT : tok.data.asString = tok := by cases tok; rfl
    have hrun : handleWechatPost st validUrl now
        (textMsg openId toUser ("bind " ++ url ++ " " ++ tok))
        = ⟨setBinding st openId url tok now,
           some ⟨openId, toUser, bindSuccessMsg url⟩, false⟩ := by
      simp [handleWechatPost, textMsg, hget, hjt, hjo, hmatch, hAsU, hAsT,
        hValid]
    rw [hrun]
    exact ⟨by simp [getBinding, setBinding, storeSet], rfl⟩
  · intro st2 b now2 url2 tok2 hget2
    have hdata2 := bindCommand_data url2 tok2
    have hContentNe2 : ("bind " ++ url2 ++ " " ++ tok2) ≠ "" := by
      intro h
      rw [h] at hdata2
      exact absurd hdata2.symm (List.cons_ne_nil _ _)
    have hjt2 : jsTruthy (some ("bind " ++ url2 ++ " " ++ tok2)) = true := by
      simp [jsTruthy, hContentNe2]
    have hjo2 : jsOr (some ("bind " ++ url2 ++ " " ++ tok2)) ""
        = "bind " ++ url2 ++ " " ++ tok2 := by
      simp [jsOr, hContentNe2]
    have hub : isUnbindCmd ("bind " ++ url2 ++ " " ++ tok2) = false :=
      isUnbindCmd_eq_false_of_data hdata2
    have hrun : handleWechatPost st2 validUrl now2
        (textMsg openId toUser ("bind " ++ url2 ++ " " ++ tok2))
        = ⟨st2, some ⟨openId, toUser, processingMsg⟩, true⟩ := by
      simp [handleWechatPost, textMsg, hget2, hjt2, hjo2, hub]
    rw [hrun]
    exact ⟨rfl, rfl, hget2⟩
  · intro st3 b hget3
    have hu : isUnbindCmd "unbind" = true := by decide
    have hrun : handleWechatPost st3 validUrl now
        (textMsg openId toUser "unbind")
        = ⟨storeDel st3 (bindingKeyOf openId),
           some ⟨openId, toUser, unbindOkMsg⟩, false⟩ := by
      simp [handleWechatPost, textMsg, hget3, hu, jsTruthy, jsOr,
        deleteBinding]
    rw [hrun]
    simp [getBinding, storeDel]

/-- C1 witness: concrete bind from an unbound subject round-trips, and a
concrete unbind leaves the lookup absent. -/
theorem claim_C1_witness :
    getBinding (handleWechatPost emptyStore cxValidUrl 5
        (textMsg "u1" "srv"
          ("bind " ++ "http://a.example" ++ " " ++ "tok1"))).store "u1"
      = some ⟨"http://a.example", "tok1", 5⟩
    ∧ getBinding (handleWechatPost
        (setBinding emptyStore "u1" "http://a.example" "tok1" 5)
        cxValidUrl 5 (textMsg "u1" "srv" "unbind")).store "u1" = none := by
  constructor
  · exact ((claim_C1_amended emptyStore cxValidUrl 5 "u1" "srv"
      "http://a.example" "tok1" (by decide) (by decide) (by decide)
      (by decide) rfl rfl).1).1
  · exact (claim_C1_amended emptyStore cxValidUrl 5 "u1" "srv"
      "http://a.example" "tok1" (by decide) (by decide) (by decide)
      (by decide) rfl rfl).2.2
      (setBinding emptyStore "u1" "http://a.example" "tok1" 5)
      ⟨"http://a.example", "tok1", 5⟩ (by decide)

/-! ## Claim C9 — GET /wechat handshake statuses -/

/-- C9 counterexample: all three auth parameters present and the signature
valid, but `echostr` absent — the handler answers 403, not 200 with the
echostr, refuting "200 with the echostr as body if the signature is
valid". -/
theorem claim_C9_counterexample :
    handleWechatGet (fun _ => "SIG") "tok" (some "SIG") (some "111")
      (some "222") none = .forbidden := by decide

/-- C9 amended: 400 when any of signature/timestamp/nonce is missing (or
empty, which JS falsiness treats as missing); 200 with the echostr body
when the signature is valid *and* `echostr` is present and non-empty; 403
otherwise — including a valid signature with a missing or empty
`echostr`. -/
theorem claim_C9_amended :
    ∀ (sha1 : String → String) (token : String)
      (signature timestamp nonce echostr : Option String),
      ((jsTruthy signature && jsTruthy timestamp && jsTruthy nonce) = false →
        handleWechatGet sha1 token signature timestamp nonce echostr
          = .badRequest)
      ∧ ((jsTruthy signature && jsTruthy timestamp && jsTruthy nonce) = true →
          (validateSignature sha1 token (jsOr signature "")
              (jsOr timestamp "") (jsOr nonce "")
            && jsTruthy echostr) = true →
          handleWechatGet sha1 token signature timestamp nonce echostr
            = .echo (jsOr echostr ""))
      ∧ ((jsTruthy signature && jsTruthy timestamp && jsTruthy nonce) = true →
          (validateSignature sha1 token (jsOr signature "")
              (jsOr timestamp "") (jsOr nonce "")
            && jsTruthy echostr) = false →
          handleWechatGet sha1 token signature timestamp nonce echostr
            = .forbidden) := by
  intro sha1 token signature timestamp nonce echostr
  refine ⟨?_, ?_, ?_⟩
  · intro h; simp [handleWechatGet, h]
  · intro h hv; simp [handleWechatGet, h, hv]
  · intro h hv; simp [handleWechatGet, h, hv]

/-- C9 witness: a fully-present valid request echoes the challenge; a
request missing its signature is a 400. -/
theorem claim_C9_witness :
    handleWechatGet (fun _ => "S") "tok" (some "S") (some "1") (some "2")
      (some "E") = .echo (jsOr (some "E") "")
    ∧ handleWechatGet (fun _ => "S") "tok" none (some "1") (some "2")
        (some "E") = .badRequest := by
  constructor
  · exact (claim_C9_amended (fun _ => "S") "tok" (some "S") (some "1")
      (some "2") (some "E")).2.1 (by decide) (by decide)
  · exact (claim_C9_amended (fun _ => "S") "tok" none (some "1") (some "2")
      (some "E")).1 (by decide)

/-! ## Claim C5 — long-text chunking -/

theorem lastIndexOfWithin_eq_none {l : List Char} {c : Char}
    (h : ∀ i, l.get? i ≠ some c) : ∀ n, lastIndexOfWithin l c n = none := by
  simp only [List.get?_eq_getElem?] at h
  intro n
  induction n with
  | zero => simp [lastIndexOfWithin, h 0]
  | succ k ih => simp [lastIndexOfWithin, h (k + 1), ih]

theorem replicate_a_no_char (m : Nat) (c : Char) (hc : c ≠ 'a') :
    ∀ i, (List.replicate m 'a').get? i ≠ some c := by
  intro i h
  rw [List.get?_eq_getElem?, List.getElem?_replicate] at h
  split at h
  · injection h with h1; exact hc (h1.symm)
  · exact Option.noConfusion h

theorem splitIndexOf_replicate_a (m : Nat) :
    splitIndexOf (List.replicate m 'a') = 600 := by
  have h1 := lastIndexOfWithin_eq_none
    (replicate_a_no_char m '\n' (by decide)) 600
  have h2 := lastIndexOfWithin_eq_none
    (replicate_a_no_char m ' ' (by decide)) 600
  simp only [splitIndexOf, MAX_LENGTH, h1, h2]

theorem dropWhile_ws_replicate_a (n : Nat) :
    (List.replicate n 'a').dropWhile jsWhitespace = List.replicate n 'a' := by
  cases n with
  | zero => rfl
  | succ k =>
    rw [List.replicate_succ]
    rw [List.dropWhile_cons_of_neg (by decide)]

/-- One iteration of the splitting loop on an unbroken run of `a`s longer
than the ceiling: a hard cut at 600. -/
theorem splitChunksFuel_replicate_step (fuel m : Nat) (h : 600 < m) :
    splitChunksFuel (fuel + 1) (List.replicate m 'a')
      = List.replicate 600 'a'
        :: splitChunksFuel fuel (List.replicate (m - 600) 'a') := by
  simp only [splitChunksFuel, MAX_LENGTH, List.length_replicate]
  rw [if_neg (by omega), if_neg (by omega)]
  rw [splitIndexOf_replicate_a]
  rw [List.take_replicate, List.drop_replicate]
  rw [Nat.min_eq_left (by omega)]
  rw [dropWhile_ws_replicate_a]

theorem splitChunksFuel_replicate_last (fuel m : Nat) (h1 : 0 < m)
    (h2 : m ≤ 600) :
    splitChunksFuel (fuel + 1) (List.replicate m 'a')
      = [List.replicate m 'a'] := by
  simp only [splitChunksFuel, MAX_LENGTH, List.length_replicate]
  rw [if_neg (by omega), if_pos (by omega)]

/-- The 1450-character unbroken message splits 600/600/250. -/
theorem splitChunks_longA :
    splitChunks (List.replicate 1450 'a')
      = [List.replicate 600 'a', List.replicate 600 'a',
         List.replicate 250 'a'] := by
  calc splitChunks (List.replicate 1450 'a')
      = splitChunksFuel (1449 + 1) (List.replicate 1450 'a') := by
        simp [splitChunks]
    _ = [List.replicate 600 'a', List.replicate 600 'a',
         List.replicate 250 'a'] := by
        rw [splitChunksFuel_replicate_step 1449 1450 (by omega)]
        rw [show (1450 : Nat) - 600 = 850 from rfl]
        rw [show (1449 : Nat) = 1448 + 1 from rfl]
        rw [splitChunksFuel_replicate_step 1448 850 (by omega)]
        rw [show (850 : Nat) - 600 = 250 from rfl]
        rw [show (1448 : Nat) = 1447 + 1 from rfl]
        rw [splitChunksFuel_replicate_last 1447 250 (by omega) (by omega)]

/-- The three bodies actually sent for the 1450-character message. -/
theorem sendTextMessageBodies_longA :
    sendTextMessageBodies longContent
      = [aRun 600, "(2/3) " ++ aRun 600, "(3/3) " ++ aRun 250] := by
  have hlen : longContent.length = 1450 := rfl
  simp only [sendTextMessageBodies, MAX_LENGTH]
  rw [if_neg (by omega)]
  rw [show longContent.data = List.replicate 1450 'a' from rfl]
  rw [splitChunks_longA]
  simp only [List.map_cons, List.map_nil, List.length_cons, List.length_nil]
  simp only [numberChunks, chunkWithMarker]
  norm_num
  refine ⟨rfl, ?_, ?_⟩
  · show "(" ++ toString (2 : Nat) ++ "/" ++ toString (3 : Nat) ++ ") "
      ++ (List.replicate 600 'a').asString = "(2/3) " ++ aRun 600
    rfl
  · show "(" ++ toString (3 : Nat) ++ "/" ++ toString (3 : Nat) ++ ") "
      ++ (List.replicate 250 'a').asString = "(3/3) " ++ aRun 250
    rfl

theorem lastIndexOfWithin_le {l : List Char} {c : Char} :
    ∀ {n i}, lastIndexOfWithin l c n = some i → i ≤ n := by
  intro n
  induction n with
  | zero =>
    intro i h
    simp only [lastIndexOfWithin] at h
    split at h
    · injection h with h1; omega
    · exact Option.noConfusion h
  | succ k ih =>
    intro i h
    simp only [lastIndexOfWithin] at h
    split at h
    · injection h with h1; omega
    · exact Nat.le_trans (ih h) (by omega)

/-- The chosen split index never exceeds the ceiling. -/
theorem splitIndexOf_le (l : List Char) : splitIndexOf l ≤ 600 := by
  simp only [splitIndexOf, MAX_LENGTH]
  split
  · next i heq =>
    have hi : i ≤ 600 := by
      split at heq
      · next k hk =>
        split at heq
        · exact lastIndexOfWithin_le heq
        · injection heq with h; exact h ▸ lastIndexOfWithin_le hk
      · exact lastIndexOfWithin_le heq
    split <;> omega
  · omega

/-- The chosen split index is at least half the ceiling (a natural break
below the midpoint is rejected in favour of the hard cut). -/
theorem splitIndexOf_ge (l : List Char) : 300 ≤ splitIndexOf l := by
  simp only [splitIndexOf, MAX_LENGTH]
  split
  · next i heq => split <;> omega
  · omega

theorem splitChunksFuel_chunk_le :
    ∀ (fuel : Nat) (l ch : List Char), ch ∈ splitChunksFuel fuel l →
      ch.length ≤ 600 := by
  intro fuel
  induction fuel with
  | zero => intro l ch h; simp [splitChunksFuel] at h
  | succ k ih =>
    intro l ch h
    simp only [splitChunksFuel, MAX_LENGTH] at h
    by_cases h0 : l.length = 0
    · rw [if_pos h0] at h; simp at h
    · rw [if_neg h0] at h
      by_cases h6 : l.length ≤ 600
      · rw [if_pos h6] at h
        simp only [List.mem_singleton] at h
        subst h
        exact h6
      · rw [if_neg h6] at h
        simp only [List.mem_cons] at h
        rcases h with h | h
        · subst h
          have hle := splitIndexOf_le l
          simp only [List.length_take]
          omega
        · exact ih _ _ h

/-- Every raw chunk produced by the splitting loop is at most 600
characters (before the `(n/total)` marker is added). -/
theorem splitChunks_chunk_le (l ch : List Char) (h : ch ∈ splitChunks l) :
    ch.length ≤ 600 :=
  splitChunksFuel_chunk_le l.length l ch h

/-- The fuel used to embed the splitting `while` loop is irrelevant once it
is at least the input length, so `splitChunks` computes the loop's true
fixpoint. -/
theorem splitChunksFuel_fuel_irrelevant :
    ∀ (fuel : Nat) (l : List Char), l.length ≤ fuel →
      splitChunksFuel fuel l = splitChunksFuel l.length l := by
  intro fuel
  induction fuel using Nat.strong_induction_on with
  | _ fuel ih =>
    intro l hl
    cases fuel with
    | zero =>
      have h0 : l.length = 0 := by omega
      rw [h0]
    | succ f =>
      by_cases h0 : l.length = 0
      · have hnil : l = [] := List.length_eq_zero.mp h0
        subst hnil
        simp [splitChunksFuel]
      · obtain ⟨k, hk⟩ : ∃ k, l.length = k + 1 := ⟨l.length - 1, by omega⟩
        rw [hk]
        by_cases h6 : l.length ≤ 600
        · simp only [splitChunksFuel, MAX_LENGTH]
          rw [if_neg h0, if_pos h6, if_neg h0, if_pos h6]
        · simp only [splitChunksFuel, MAX_LENGTH]
          rw [if_neg h0, if_neg h6, if_neg h0, if_neg h6]
          have hrl : ((l.drop (splitIndexOf l)).dropWhile jsWhitespace).length
              ≤ l.length - 300 := by
            have hsub := (List.dropWhile_sublist
              (l := l.drop (splitIndexOf l)) jsWhitespace).length_le
            have hdl : (l.drop (splitIndexOf l)).length
                = l.length - splitIndexOf l := List.length_drop _ _
            have hge := splitIndexOf_ge l
            omega
          have e1 := ih f (by omega)
            ((l.drop (splitIndexOf l)).dropWhile jsWhitespace) (by omega)
          have e2 := ih k (by omega)
            ((l.drop (splitIndexOf l)).dropWhile jsWhitespace) (by omega)
          rw [e1, e2]

/-- C5 counterexample: the 1450-character message of unbroken `a`s does
split into 3 chunks, but the second *prefixed* body is 606 characters —
"each at most 600 characters including its prefix" is false: the marker is
added after splitting, on top of a full 600-character chunk. -/
theorem claim_C5_counterexample :
    (sendTextMessageBodies longContent).map String.length = [600, 606, 256]
    ∧ ("(2/3) " ++ aRun 600).length = 606 := by
  have h1 : ("(2/3) " : String).length = 6 := rfl
  have h2 : ("(3/3) " : String).length = 6 := rfl
  have h3 : (aRun 600).length = 600 := by
    simp only [aRun, String.length_mk, List.length_replicate]
  have h4 : (aRun 250).length = 250 := by
    simp only [aRun, String.length_mk, List.length_replicate]
  constructor
  · rw [sendTextMessageBodies_longA]
    simp [String.length_append, h1, h2, h3, h4]
  · rw [String.length_append, h1, h3]

/-- C5 amended: splitting follows the last-newline / last-space / hard-cut
policy with breaks below the midpoint rejected; the 1450-character
no-newline no-space message yields exactly 3 chunks in order, whose raw
contents are each at most 600 characters and concatenate back to the
original; each chunk after the first carries its `(n/total) ` marker, which
may push the sent body past 600 (600/606/256 here). -/
theorem claim_C5_amended :
    sendTextMessageBodies longContent
      = [aRun 600, "(2/3) " ++ aRun 600, "(3/3) " ++ aRun 250]
    ∧ (sendTextMessageBodies longContent).map String.length = [600, 606, 256]
    ∧ List.flatten (splitChunks longContent.data) = longContent.data
    ∧ (∀ l ch, ch ∈ splitChunks l → ch.length ≤ 600) := by
  refine ⟨sendTextMessageBodies_longA, ?_, ?_, splitChunks_chunk_le⟩
  · have h1 : ("(2/3) " : String).length = 6 := rfl
    have h2 : ("(3/3) " : String).length = 6 := rfl
    have h3 : (aRun 600).length = 600 := by
      simp only [aRun, String.length_mk, List.length_replicate]
    have h4 : (aRun 250).length = 250 := by
      simp only [aRun, String.length_mk, List.length_replicate]
    rw [sendTextMessageBodies_longA]
    simp [String.length_append, h1, h2, h3, h4]
  · rw [show longContent.data = List.replicate 1450 'a' from rfl]
    rw [splitChunks_longA]
    simp only [List.flatten, List.append_nil, ← List.replicate_add]

/-- C5 witness: the first chunk of the 1450-character message is within the
600-character ceiling. -/
theorem claim_C5_witness :
    (List.replicate 600 'a').length ≤ 600 :=
  claim_C5_amended.2.2.2 longContent.data (List.replicate 600 'a')
    (by rw [show longContent.data = List.replicate 1450 'a' from rfl,
          splitChunks_longA]; simp)

end WechatBridge
